import Mathlib

/-!
Verification of the kubetail cluster-api gateway (`modules/cluster-api/internal/app/app.go`)
against its natural-language specification.

The gateway is shallowly embedded: gin's route-group mechanics (middleware lists captured
at route-registration time, `joinPaths` path arithmetic), Go's `path.Join`/`path.Clean`,
the construction function `NewApp`, the `Shutdown` sequence and the per-request pipeline
semantics are all translated into executable Lean definitions, and the claims are settled
as theorems about them.
-/

namespace Kubetail

/-! ## Go `path` package: `Clean` and `Join`

Implemented over `List Char` with structural recursion so that all path computations
reduce by `decide`/`rfl` on concrete inputs. -/

/-- Splits a character list into the segments between `'/'` characters
(the character-level counterpart of splitting a path on slashes). -/
def splitSlash : List Char → List (List Char)
  | [] => [[]]
  | c :: cs =>
    match splitSlash cs with
    | [] => [[]]
    | seg :: rest => if c = '/' then [] :: seg :: rest else (c :: seg) :: rest

/-- Joins segments back together with `'/'` separators. -/
def joinSegs : List (List Char) → List Char
  | [] => []
  | [seg] => seg
  | seg :: rest => seg ++ '/' :: joinSegs rest

/-- One step of Go's `path.Clean` element processing: maintains a reversed stack of kept
path elements while scanning elements left to right.  Empty elements and `"."` are
dropped; `".."` pops a previous element when possible (and is dropped entirely at the
root of a rooted path). -/
def cleanStep (rooted : Bool) (stack : List (List Char)) (p : List Char) : List (List Char) :=
  if p = [] ∨ p = ['.'] then stack
  else if p = ['.', '.'] then
    match stack with
    | [] => if rooted then [] else [['.', '.']]
    | q :: qs => if q = ['.', '.'] then p :: q :: qs else qs
  else p :: stack

/-- Go's `path.Clean`: returns the shortest path name equivalent to the input by purely
lexical processing (collapse multiple slashes, eliminate `.` and `..` elements). -/
def pathClean (p : String) : String :=
  match p.data with
  | [] => "."
  | c :: cs =>
    let rooted := c = '/'
    let stack := (splitSlash (c :: cs)).foldl (cleanStep rooted) []
    let core := joinSegs stack.reverse
    if core = [] then (if rooted then "/" else ".")
    else (if rooted then String.mk ('/' :: core) else String.mk core)

/-- Go's `path.Join` on two elements: empty elements are skipped, the remainder is
joined with `/` and the result cleaned; joining two empties yields `""`. -/
def pathJoin (a b : String) : String :=
  if a = "" ∧ b = "" then ""
  else if a = "" then pathClean b
  else if b = "" then pathClean (a ++ "/")
  else pathClean (a ++ "/" ++ b)

/-! ## gin's `joinPaths` (router-group path arithmetic) -/

/-- Tests whether a string's final character is `'/'` (gin's `lastChar(path) == '/'`). -/
def lastIsSlash (s : String) : Bool := s.data.getLast? = some '/'

/-- gin's `joinPaths`: `path.Join` of the absolute and relative paths, restoring a
trailing slash when the relative path ended with one. -/
def joinPaths (absolutePath relativePath : String) : String :=
  if relativePath = "" then absolutePath
  else
    let finalPath := pathJoin absolutePath relativePath
    if lastIsSlash relativePath ∧ ¬ lastIsSlash finalPath then finalPath ++ "/"
    else finalPath

example : pathJoin "/" "/graphql" = "/graphql" := by decide
example : pathJoin "" "/graphql" = "/graphql" := by decide
example : pathJoin "/base" "/graphql" = "/base/graphql" := by decide
example : pathJoin "base" "/graphql" = "base/graphql" := by decide
example : joinPaths "/" "" = "/" := by decide
example : joinPaths "/" "/" = "/" := by decide
example : joinPaths "/base" "/" = "/base/" := by decide
example : joinPaths "/base/" "/graphql" = "/base/graphql" := by decide

/-! ## Data model

Configuration (the fields of `config.Config` that `NewApp` reads), the gin run mode
(`gin.Mode()`), subsystem handles, and the gateway value `App`. -/

/-- Errors returned by Go functions (`error` values), identified by their message. -/
structure GoError where
  msg : String
deriving DecidableEq, Repr

/-- gin's global mode: `gin.DebugMode`, `gin.ReleaseMode` or `gin.TestMode`.
`NewApp` branches only on whether the mode is `TestMode`. -/
inductive GinMode where
  | debug
  | release
  | test
deriving DecidableEq, Repr

/-- Cookie attributes of the CSRF configuration (`cfg.ClusterAPI.CSRF.Cookie`). -/
structure CsrfCookieConfig where
  name : String
  path : String
  domain : String
  maxAge : Nat
  secure : Bool
  httpOnly : Bool
  sameSite : Nat
deriving DecidableEq, Repr

/-- The slice of `config.Config` that `NewApp` reads. -/
structure Config where
  basePath : String
  accessLogEnabled : Bool
  hideHealthChecks : Bool
  csrfEnabled : Bool
  csrfSecret : String
  csrfFieldName : String
  csrfCookie : CsrfCookieConfig
  allowedNamespaces : List String
deriving DecidableEq, Repr

/-- A live connection manager handle (`k8shelpers.ConnectionManager`). -/
structure ConnectionManager where
  unit : Unit
deriving DecidableEq, Repr

/-- A live grpc dispatcher handle (`*grpcdispatcher.Dispatcher`). -/
structure Dispatcher where
  unit : Unit
deriving DecidableEq, Repr

/-- A GraphQL server handle (`*graph.Server`), recording the collaborators it was
constructed from. -/
structure GraphServer where
  cm : Option ConnectionManager
  dispatcher : Option Dispatcher
  allowedNamespaces : List String
  hasCsrfValidator : Bool
deriving DecidableEq, Repr

/-- Modelled from the spec: `graph.NewServer` (the query-server constructor, whose code is
outside this repository slice) returns a non-null handle built from the connection
manager, dispatcher, allowed-namespace set and optional CSRF validator it is given. -/
def graphNewServer (cm : Option ConnectionManager) (d : Option Dispatcher)
    (ns : List String) (hasCsrfValidator : Bool) : GraphServer :=
  { cm := cm, dispatcher := d, allowedNamespaces := ns, hasCsrfValidator := hasCsrfValidator }

/-- Modelled from the spec: `mustNewGrpcDispatcher` (defined elsewhere in the `app`
package) returns a dispatcher handle, failing fatally — never returning null — if
misconfigured; the fatal path is a startup precondition, so the model returns a handle. -/
def mustNewGrpcDispatcher (_cfg : Config) : Dispatcher := { unit := () }

/-- The middleware installed by `NewApp`, tagged by identity; the csrf-exemption
middleware carries the base path its closure captured. -/
inductive Mw where
  | recovery
  | requestId
  | logging (hideHealthChecks : Bool)
  | gzip
  | secureHeaders
  | csrfExempt (basePath : String)
  | csrfGate
  | auth
deriving DecidableEq, Repr

/-- The terminal handlers registered by `NewApp`, tagged by identity. -/
inductive Handler where
  | rootInfo
  | healthz
  | csrfToken
  | graphql
  | staticFile (name : String)
deriving DecidableEq, Repr

/-- A registered route: method, full path, the middleware chain captured at
registration time, and the terminal handler. -/
structure Route where
  method : String
  path : String
  chain : List Mw
  handler : Handler
deriving DecidableEq, Repr

/-- A gin router group: a base path plus the middleware handlers accumulated on it. -/
structure RouterGroup where
  basePath : String
  handlers : List Mw
deriving DecidableEq, Repr

/-- The gateway value (`App` in `app.go`): the route table of its engine plus the
nullable subsystem handles and the retained dynamic-route group. -/
structure App where
  routes : List Route
  cm : Option ConnectionManager
  grpcDispatcher : Option Dispatcher
  graphqlServer : Option GraphServer
  dynamicRoutes : Option RouterGroup
deriving DecidableEq, Repr

/-- Environment behavior of the construction-time collaborators: the outcome of
`k8shelpers.NewConnectionManager` and of `fs.Sub` on the embedded static assets. -/
structure BuildEnv where
  cmResult : Except GoError ConnectionManager
  staticFSResult : Except GoError Unit
deriving Repr

/-- Externally observable side effects performed while `NewApp` runs. -/
inductive BuildEffect where
  | newConnectionManager
  | newGrpcDispatcher
deriving DecidableEq, Repr

/-- The methods registered by gin's `router.Any`. -/
def anyMethods : List String :=
  ["GET", "POST", "PUT", "PATCH", "HEAD", "OPTIONS", "DELETE", "CONNECT", "TRACE"]

/-- gin's `StaticFileFS` registers the file for both GET and HEAD. -/
def staticFileRoutes (base : String) (chain : List Mw) (rel fname : String) : List Route :=
  [ { method := "GET", path := joinPaths base rel, chain := chain,
      handler := Handler.staticFile fname },
    { method := "HEAD", path := joinPaths base rel, chain := chain,
      handler := Handler.staticFile fname } ]

/-- `NewApp` from `app.go`, embedded step by step in source order: recovery middleware,
connection manager and dispatcher only outside test mode; request-id, optional access
logging and gzip always; the dynamic-route group with security headers, the graphql
CSRF exemption, the CSRF gate and token route only when enabled, then the
authentication middleware and the graphql route; root, healthz and static routes on
the root group.  A failure of any construction step aborts with that error. -/
def NewApp (cfg : Config) (mode : GinMode) (env : BuildEnv) :
    Except GoError (App × List BuildEffect) := do
  -- if gin.Mode() != gin.TestMode: recovery, connection manager, dispatcher
  let (engineBase, cm, dispatcher, effects) ←
    if mode ≠ GinMode.test then do
      let cm ← env.cmResult
      pure ([Mw.recovery], some cm, some (mustNewGrpcDispatcher cfg),
            [BuildEffect.newConnectionManager, BuildEffect.newGrpcDispatcher])
    else
      pure (([] : List Mw), none, none, ([] : List BuildEffect))
  -- request-id, optional access logging, gzip
  let engineHandlers :=
    engineBase ++ [Mw.requestId]
      ++ (if cfg.accessLogEnabled then [Mw.logging cfg.hideHealthChecks] else [])
      ++ [Mw.gzip]
  -- root := app.Group(cfg.ClusterAPI.BasePath); the engine's base path is "/"
  let rootPath := joinPaths "/" cfg.basePath
  -- dynamicRoutes := root.Group("/")
  let dynPath := joinPaths rootPath "/"
  let dynH1 := engineHandlers ++ [Mw.secureHeaders, Mw.csrfExempt cfg.basePath]
  -- if cfg.ClusterAPI.CSRF.Enabled: CSRF gate and token route
  let (csrfRoutes, dynH2) :=
    if cfg.csrfEnabled then
      let h := dynH1 ++ [Mw.csrfGate]
      ([ { method := "GET", path := joinPaths dynPath "/csrf-token", chain := h,
           handler := Handler.csrfToken } ], h)
    else ([], dynH1)
  -- authentication middleware
  let dynH3 := dynH2 ++ [Mw.auth]
  -- graphql server and route (all methods)
  let gqlServer := graphNewServer cm dispatcher cfg.allowedNamespaces cfg.csrfEnabled
  let gqlRoutes := anyMethods.map fun m =>
    { method := m, path := joinPaths dynPath "/graphql", chain := dynH3,
      handler := Handler.graphql }
  -- root and health endpoints
  let rootRoutes : List Route :=
    [ { method := "GET", path := joinPaths rootPath "/", chain := engineHandlers,
        handler := Handler.rootInfo },
      { method := "GET", path := joinPaths rootPath "/healthz", chain := engineHandlers,
        handler := Handler.healthz } ]
  -- staticFS initialization may fail
  let _ ← env.staticFSResult
  let assetRoutes :=
    staticFileRoutes rootPath engineHandlers "/graphiql" "/graphiql.html"
      ++ staticFileRoutes rootPath engineHandlers "/favicon.ico" "/favicon.ico"
      ++ staticFileRoutes rootPath engineHandlers "/favicon.svg" "/favicon.svg"
  pure ({ routes := csrfRoutes ++ gqlRoutes ++ rootRoutes ++ assetRoutes,
          cm := cm, grpcDispatcher := dispatcher, graphqlServer := some gqlServer,
          dynamicRoutes := some { basePath := dynPath, handlers := dynH3 } },
        effects)

/-! ## Per-request pipeline semantics

Each inbound request runs synchronously through the middleware chain captured by the
route it matches; any stage may abort, in which case later stages and the handler are
skipped. -/

/-- An inbound HTTP request, with the facts about it the pipeline consults: whether the
session verifier accepts it and whether it carries a CSRF token that the double-submit
check accepts. -/
structure Request where
  method : String
  path : String
  hasValidSession : Bool
  hasValidCsrfToken : Bool
deriving DecidableEq, Repr

/-- Response bodies the gateway produces. -/
inductive Body where
  | empty
  | text (s : String)
  | jsonObj (fields : List (String × String))
  | fileContents (name : String)
deriving DecidableEq, Repr

/-- Observable events of one request's trip through the pipeline. -/
inductive Event where
  | csrfGateRan
  | handlerRan (h : Handler)
deriving DecidableEq, Repr

/-- Request-scoped behavior of the external collaborators consulted while serving:
the token that `gorilla/csrf` issues for this request. -/
structure ServeEnv where
  csrfToken : String
deriving DecidableEq, Repr

/-- The per-request context: the request plus the response under construction, the
CSRF-skip mark set by `csrf.UnsafeSkipCheck`, the issued token, an abort flag, and the
trace of observable events. -/
structure Ctx where
  req : Request
  skipCsrf : Bool
  issuedToken : Option String
  headers : List (String × String)
  status : Option Nat
  body : Body
  aborted : Bool
  trace : List Event
deriving DecidableEq, Repr

/-- The initial context for a request. -/
def Ctx.init (req : Request) : Ctx :=
  { req := req, skipCsrf := false, issuedToken := none, headers := [], status := none,
    body := Body.empty, aborted := false, trace := [] }

/-- Aborts the chain with the given status and body. -/
def Ctx.abortWith (ctx : Ctx) (status : Nat) (body : Body) : Ctx :=
  { ctx with status := some status, body := body, aborted := true }

/-- The headers written by `secure.New` under the configuration in `app.go`:
STS max-age 63072000, frame denial, the CSP string, and nosniff. -/
def secureConfigHeaders : List (String × String) :=
  [ ("Strict-Transport-Security", "max-age=63072000"),
    ("X-Frame-Options", "DENY"),
    ("Content-Security-Policy", "default-src 'none'; frame-ancestors 'none'"),
    ("X-Content-Type-Options", "nosniff") ]

/-- The safe methods of `gorilla/csrf`, which undergo no token verification. -/
def csrfSafeMethods : List String := ["GET", "HEAD", "OPTIONS", "TRACE"]

/-- Runs one middleware on a context (the context is not yet aborted).
`recovery`, `requestId`, `logging` and `gzip` do not affect the observable response.
`secureHeaders` writes the fixed security headers before anything downstream runs.
`csrfExempt` marks the request with `csrf.UnsafeSkipCheck` exactly when its URL path
equals `path.Join(basePath, "/graphql")`.  `csrfGate` (gorilla/csrf) returns to the
chain immediately when the skip mark is set; otherwise it issues a token and, for
non-safe methods, rejects requests without a valid token with 403 Forbidden.
`auth` is modelled from the spec: the authentication middleware (defined elsewhere in
the `app` package) aborts requests without a verified session with an
Unauthorized-class error and otherwise passes through. -/
def runMw (env : ServeEnv) (mw : Mw) (ctx : Ctx) : Ctx :=
  match mw with
  | Mw.recovery => ctx
  | Mw.requestId => ctx
  | Mw.logging _ => ctx
  | Mw.gzip => ctx
  | Mw.secureHeaders => { ctx with headers := ctx.headers ++ secureConfigHeaders }
  | Mw.csrfExempt basePath =>
      if ctx.req.path = pathJoin basePath "/graphql" then { ctx with skipCsrf := true }
      else ctx
  | Mw.csrfGate =>
      if ctx.skipCsrf then ctx
      else
        let ctx := { ctx with trace := ctx.trace ++ [Event.csrfGateRan],
                              issuedToken := some env.csrfToken }
        if ctx.req.method ∈ csrfSafeMethods then ctx
        else if ctx.req.hasValidCsrfToken then ctx
        else ctx.abortWith 403 (Body.text "Forbidden - CSRF token invalid")
  | Mw.auth =>
      if ctx.req.hasValidSession then ctx
      else ctx.abortWith 401 (Body.text "Unauthorized")

/-- Runs a middleware chain, skipping everything after an abort. -/
def runChain (env : ServeEnv) (chain : List Mw) (ctx : Ctx) : Ctx :=
  chain.foldl (fun c mw => if c.aborted then c else runMw env mw c) ctx

/-- Runs a terminal handler.  `healthz` answers 200 with `{"status":"ok"}`; the
csrf-token route answers 200 with `{"value": <token>}` for the token the gate put in
the request context; the root route answers with the informational text; the graphql
route delegates to the query server; static routes serve the embedded file. -/
def runHandler (h : Handler) (ctx : Ctx) : Ctx :=
  let ctx := { ctx with trace := ctx.trace ++ [Event.handlerRan h] }
  match h with
  | Handler.rootInfo => { ctx with status := some 200, body := Body.text "Kubetail Cluster API" }
  | Handler.healthz => { ctx with status := some 200, body := Body.jsonObj [("status", "ok")] }
  | Handler.csrfToken =>
      { ctx with status := some 200,
                 body := Body.jsonObj [("value", ctx.issuedToken.getD "")] }
  | Handler.graphql => { ctx with status := some 200, body := Body.text "graphql response" }
  | Handler.staticFile name => { ctx with status := some 200, body := Body.fileContents name }

/-- Runs one route's captured chain and, if no stage aborted, its handler. -/
def runRoute (env : ServeEnv) (r : Route) (req : Request) : Ctx :=
  let ctx := runChain env r.chain (Ctx.init req)
  if ctx.aborted then ctx else runHandler r.handler ctx

/-- Finds the route matching a request: same method and exact path match. -/
def findRoute (routes : List Route) (req : Request) : Option Route :=
  routes.find? fun r => r.method = req.method ∧ r.path = req.path

/-- Serves one request through the gateway: route lookup, then the route's pipeline;
unmatched requests get gin's 404. -/
def serve (a : App) (env : ServeEnv) (req : Request) : Ctx :=
  match findRoute a.routes req with
  | some r => runRoute env r req
  | none => (Ctx.init req).abortWith 404 (Body.text "404 page not found")

/-! ## Shutdown -/

/-- The observable release steps of `Shutdown`, in execution order. -/
inductive ShutdownEvent where
  | dispatcherShutdown
  | graphqlShutdown
  | cmShutdown
deriving DecidableEq, Repr

/-- Behavior of the subsystems during shutdown: the error (if any) each release
returns.  The graphql server's `Shutdown` returns nothing. -/
structure ShutdownEnv where
  dispatcherErr : Option GoError
  cmErr : Option GoError
deriving DecidableEq, Repr

/-- A nil-handle method invocation (a Go nil-pointer/nil-interface panic). -/
structure NilDeref where
  unit : Unit
deriving DecidableEq, Repr

/-- `Shutdown` from `app.go`: releases the grpc dispatcher only when one exists,
swallowing its error; then invokes the graphql server's shutdown unconditionally; then
invokes the connection manager's shutdown unconditionally and returns its error.
Invoking a method through a null handle is modelled as a `NilDeref` panic.  Returns the
ordered release steps performed and the error returned to the caller. -/
def Shutdown (a : App) (env : ShutdownEnv) :
    Except NilDeref (List ShutdownEvent × Option GoError) := do
  let dispatcherSteps ←
    match a.grpcDispatcher with
    | some _ =>
        -- TODO in source: log dispatcher shutdown errors; env.dispatcherErr is dropped
        pure [ShutdownEvent.dispatcherShutdown]
    | none => pure []
  let graphqlSteps ←
    match a.graphqlServer with
    | some _ => pure [ShutdownEvent.graphqlShutdown]
    | none => Except.error { unit := () }
  let cmSteps ←
    match a.cm with
    | some _ => pure [ShutdownEvent.cmShutdown]
    | none => Except.error { unit := () }
  pure (dispatcherSteps ++ graphqlSteps ++ cmSteps, env.cmErr)

/-! ## Characterization of the constructed gateway

Named forms of the paths, chains and routes that `NewApp` builds, proved equal to
`NewApp`'s successful result below (`newApp_ok_inv`); all claims about the construction
go through this characterization. -/

/-- The root group's path: `app.Group(cfg.ClusterAPI.BasePath)` over the engine base `"/"`. -/
def rootPathOf (cfg : Config) : String := joinPaths "/" cfg.basePath

/-- The dynamic group's path: `root.Group("/")`. -/
def dynPathOf (cfg : Config) : String := joinPaths (rootPathOf cfg) "/"

/-- The registered path of the graphql route. -/
def gqlPath (cfg : Config) : String := joinPaths (dynPathOf cfg) "/graphql"

/-- The registered path of the csrf-token route. -/
def csrfTokenPath (cfg : Config) : String := joinPaths (dynPathOf cfg) "/csrf-token"

/-- The registered path of the health route. -/
def healthzPath (cfg : Config) : String := joinPaths (rootPathOf cfg) "/healthz"

/-- The registered path of the root informational route. -/
def rootInfoPath (cfg : Config) : String := joinPaths (rootPathOf cfg) "/"

/-- The engine-level middleware chain (everything `Use`d before the groups are formed). -/
def builtEngineChain (cfg : Config) (mode : GinMode) : List Mw :=
  (if mode ≠ GinMode.test then [Mw.recovery] else []) ++ [Mw.requestId]
    ++ (if cfg.accessLogEnabled then [Mw.logging cfg.hideHealthChecks] else [])
    ++ [Mw.gzip]

/-- The chain captured by the csrf-token route (registered right after the CSRF gate,
before the authentication middleware). -/
def builtCsrfChain (cfg : Config) (mode : GinMode) : List Mw :=
  builtEngineChain cfg mode ++ [Mw.secureHeaders, Mw.csrfExempt cfg.basePath]
    ++ [Mw.csrfGate]

/-- The dynamic group's final chain (captured by the graphql route and retained on the
gateway's `dynamicRoutes` handle). -/
def builtDynChain (cfg : Config) (mode : GinMode) : List Mw :=
  builtEngineChain cfg mode ++ [Mw.secureHeaders, Mw.csrfExempt cfg.basePath]
    ++ (if cfg.csrfEnabled then [Mw.csrfGate] else []) ++ [Mw.auth]

/-- The csrf-token route. -/
def csrfTokenRoute (cfg : Config) (mode : GinMode) : Route :=
  { method := "GET", path := csrfTokenPath cfg, chain := builtCsrfChain cfg mode,
    handler := Handler.csrfToken }

/-- One of the graphql routes (`router.Any` registers one per method). -/
def gqlRoute (cfg : Config) (mode : GinMode) (m : String) : Route :=
  { method := m, path := gqlPath cfg, chain := builtDynChain cfg mode,
    handler := Handler.graphql }

/-- The root informational route. -/
def rootInfoRoute (cfg : Config) (mode : GinMode) : Route :=
  { method := "GET", path := rootInfoPath cfg, chain := builtEngineChain cfg mode,
    handler := Handler.rootInfo }

/-- The health route. -/
def healthzRoute (cfg : Config) (mode : GinMode) : Route :=
  { method := "GET", path := healthzPath cfg, chain := builtEngineChain cfg mode,
    handler := Handler.healthz }

/-- The static-asset routes. -/
def builtAssetRoutes (cfg : Config) (mode : GinMode) : List Route :=
  staticFileRoutes (rootPathOf cfg) (builtEngineChain cfg mode) "/graphiql" "/graphiql.html"
    ++ staticFileRoutes (rootPathOf cfg) (builtEngineChain cfg mode) "/favicon.ico" "/favicon.ico"
    ++ staticFileRoutes (rootPathOf cfg) (builtEngineChain cfg mode) "/favicon.svg" "/favicon.svg"

/-- The full route table `NewApp` registers, in registration order. -/
def builtRoutes (cfg : Config) (mode : GinMode) : List Route :=
  (if cfg.csrfEnabled then [csrfTokenRoute cfg mode] else [])
    ++ anyMethods.map (gqlRoute cfg mode)
    ++ [rootInfoRoute cfg mode, healthzRoute cfg mode]
    ++ builtAssetRoutes cfg mode

/-- The gateway value a successful `NewApp` returns. -/
def builtApp (cfg : Config) (mode : GinMode) : App :=
  { routes := builtRoutes cfg mode,
    cm := if mode ≠ GinMode.test then some { unit := () } else none,
    grpcDispatcher :=
      if mode ≠ GinMode.test then some (mustNewGrpcDispatcher cfg) else none,
    graphqlServer := some (graphNewServer
      (if mode ≠ GinMode.test then some { unit := () } else none)
      (if mode ≠ GinMode.test then some (mustNewGrpcDispatcher cfg) else none)
      cfg.allowedNamespaces cfg.csrfEnabled),
    dynamicRoutes := some { basePath := dynPathOf cfg, handlers := builtDynChain cfg mode } }

/-- The construction effects a successful `NewApp` performs. -/
def builtEffects (mode : GinMode) : List BuildEffect :=
  if mode ≠ GinMode.test then
    [BuildEffect.newConnectionManager, BuildEffect.newGrpcDispatcher]
  else []

/-! ## Concrete instances used by witnesses and counterexamples -/

/-- A representative live configuration: base path `/`, access log on, CSRF on. -/
def cfgEx : Config :=
  { basePath := "/", accessLogEnabled := true, hideHealthChecks := false,
    csrfEnabled := true, csrfSecret := "secret", csrfFieldName := "csrf",
    csrfCookie := { name := "ct", path := "/", domain := "", maxAge := 43200,
                    secure := true, httpOnly := true, sameSite := 1 },
    allowedNamespaces := ["default"] }

/-- A build environment in which both construction steps succeed. -/
def envExOk : BuildEnv := { cmResult := Except.ok { unit := () }, staticFSResult := Except.ok () }

/-- A serve-time environment with a fixed issued token. -/
def senvEx : ServeEnv := { csrfToken := "tok-1" }

/-- Whether a middleware is inert for the observable response (it neither changes the
context nor aborts): the recovery, request-id, logging and gzip middlewares. -/
def mwInert : Mw → Bool
  | Mw.recovery => true
  | Mw.requestId => true
  | Mw.logging _ => true
  | Mw.gzip => true
  | _ => false

/-- Scans a chain and checks that no CSRF gate occurs before a CSRF exemption check
carrying the base path `bp`: the formal counterpart of "the exemption check is
installed before the CSRF protection gate". -/
def gateGuarded (bp : String) : List Mw → Bool
  | [] => true
  | Mw.csrfGate :: _ => false
  | Mw.csrfExempt b :: rest => if b = bp then true else gateGuarded bp rest
  | _ :: rest => gateGuarded bp rest

/-! ## Sanity checks of the path arithmetic -/

example : pathJoin "/" "/graphql" = "/graphql" := by decide
example : pathJoin "" "/graphql" = "/graphql" := by decide
example : pathJoin "/base" "/graphql" = "/base/graphql" := by decide
example : pathJoin "base" "/graphql" = "base/graphql" := by decide
example : joinPaths "/" "" = "/" := by decide
example : joinPaths "/" "/" = "/" := by decide
example : joinPaths "/base" "/" = "/base/" := by decide
example : joinPaths "/base/" "/graphql" = "/base/graphql" := by decide

/-! ## Inversion of `NewApp` -/

theorem except_ok_bind {α β ε : Type} (a : α) (f : α → Except ε β) :
    (Except.ok a >>= f : Except ε β) = f a := rfl

theorem except_error_bind {α β ε : Type} (e : ε) (f : α → Except ε β) :
    (Except.error e >>= f : Except ε β) = Except.error e := rfl

/-- A successful `NewApp` returns exactly the characterized gateway and effects. -/
theorem newApp_ok (cfg : Config) (mode : GinMode) (env : BuildEnv)
    (hcm : mode = GinMode.test ∨ env.cmResult = Except.ok { unit := () })
    (hfs : env.staticFSResult = Except.ok ()) :
    NewApp cfg mode env = Except.ok (builtApp cfg mode, builtEffects mode) := by
  by_cases hm : mode = GinMode.test
  · by_cases hcsrf : cfg.csrfEnabled
    · simp [NewApp, hm, hfs, hcsrf, except_ok_bind, except_error_bind, builtApp,
            builtEffects, builtRoutes, csrfTokenRoute, gqlRoute, rootInfoRoute,
            healthzRoute, builtAssetRoutes, builtEngineChain, builtCsrfChain,
            builtDynChain, rootPathOf, dynPathOf, gqlPath, csrfTokenPath, healthzPath,
            rootInfoPath, anyMethods, staticFileRoutes]
    · simp [NewApp, hm, hfs, hcsrf, except_ok_bind, except_error_bind, builtApp,
            builtEffects, builtRoutes, csrfTokenRoute, gqlRoute, rootInfoRoute,
            healthzRoute, builtAssetRoutes, builtEngineChain, builtCsrfChain,
            builtDynChain, rootPathOf, dynPathOf, gqlPath, csrfTokenPath, healthzPath,
            rootInfoPath, anyMethods, staticFileRoutes]
  · rcases hcm with hcm | hcm
    · exact absurd hcm hm
    · by_cases hcsrf : cfg.csrfEnabled
      · simp [NewApp, hm, hcm, hfs, hcsrf, except_ok_bind, except_error_bind, builtApp,
              builtEffects, builtRoutes, csrfTokenRoute, gqlRoute, rootInfoRoute,
              healthzRoute, builtAssetRoutes, builtEngineChain, builtCsrfChain,
              builtDynChain, rootPathOf, dynPathOf, gqlPath, csrfTokenPath, healthzPath,
              rootInfoPath, anyMethods, staticFileRoutes]
      · simp [NewApp, hm, hcm, hfs, hcsrf, except_ok_bind, except_error_bind, builtApp,
              builtEffects, builtRoutes, csrfTokenRoute, gqlRoute, rootInfoRoute,
              healthzRoute, builtAssetRoutes, builtEngineChain, builtCsrfChain,
              builtDynChain, rootPathOf, dynPathOf, gqlPath, csrfTokenPath, healthzPath,
              rootInfoPath, anyMethods, staticFileRoutes]

/-- A connection-manager construction failure aborts `NewApp` with that error. -/
theorem newApp_error_cm {cfg : Config} {mode : GinMode} {env : BuildEnv} {e : GoError}
    (hm : mode ≠ GinMode.test) (hcm : env.cmResult = Except.error e) :
    NewApp cfg mode env = Except.error e := by
  simp [NewApp, hm, hcm, except_ok_bind, except_error_bind]

/-- A static-asset mount failure aborts `NewApp` with that error. -/
theorem newApp_error_static {cfg : Config} {mode : GinMode} {env : BuildEnv} {e : GoError}
    (hcm : mode = GinMode.test ∨ env.cmResult = Except.ok { unit := () })
    (hfs : env.staticFSResult = Except.error e) :
    NewApp cfg mode env = Except.error e := by
  by_cases hm : mode = GinMode.test
  · simp [NewApp, hm, hfs, except_ok_bind, except_error_bind]
  · rcases hcm with hcm | hcm
    · exact absurd hcm hm
    · simp [NewApp, hm, hcm, hfs, except_ok_bind, except_error_bind]

/-- Whatever `NewApp` successfully returns is the characterized gateway. -/
theorem newApp_ok_inv {cfg : Config} {mode : GinMode} {env : BuildEnv}
    {p : App × List BuildEffect} (h : NewApp cfg mode env = Except.ok p) :
    p = (builtApp cfg mode, builtEffects mode) := by
  by_cases hm : mode = GinMode.test
  · rcases hfs : env.staticFSResult with e | u
    · rw [newApp_error_static (Or.inl hm) hfs] at h
      exact absurd h (by simp)
    · rw [newApp_ok cfg mode env (Or.inl hm) (by rw [hfs])] at h
      exact (Except.ok.inj h).symm
  · rcases hcm : env.cmResult with e | c
    · rw [newApp_error_cm hm hcm] at h
      exact absurd h (by simp)
    · obtain ⟨⟨⟩⟩ := c
      rcases hfs : env.staticFSResult with e | u
      · rw [newApp_error_static (Or.inr hcm) hfs] at h
        exact absurd h (by simp)
      · rw [newApp_ok cfg mode env (Or.inr hcm) (by rw [hfs])] at h
        exact (Except.ok.inj h).symm

/-! ## Pipeline lemmas -/

theorem runMw_req (env : ServeEnv) (mw : Mw) (ctx : Ctx) :
    (runMw env mw ctx).req = ctx.req := by
  cases mw <;> simp only [runMw, Ctx.abortWith] <;> (try split_ifs) <;> rfl

theorem runMw_skip (env : ServeEnv) (mw : Mw) (ctx : Ctx) (hs : ctx.skipCsrf = true) :
    (runMw env mw ctx).skipCsrf = true ∧ (runMw env mw ctx).trace = ctx.trace := by
  cases mw <;> simp only [runMw, Ctx.abortWith, hs, if_true] <;> (try split_ifs) <;>
    simp [hs]

theorem runMw_trace (env : ServeEnv) (mw : Mw) (ctx : Ctx) :
    (runMw env mw ctx).trace = ctx.trace ∨
      (runMw env mw ctx).trace = ctx.trace ++ [Event.csrfGateRan] := by
  cases mw <;> simp only [runMw, Ctx.abortWith] <;> (try split_ifs) <;> simp

theorem runMw_inert (env : ServeEnv) (mw : Mw) (ctx : Ctx) (h : mwInert mw = true) :
    runMw env mw ctx = ctx := by
  cases mw <;> simp [mwInert] at h <;> rfl

theorem runChain_cons (env : ServeEnv) (mw : Mw) (rest : List Mw) (ctx : Ctx) :
    runChain env (mw :: rest) ctx =
      runChain env rest (if ctx.aborted then ctx else runMw env mw ctx) := rfl

theorem runChain_aborted (env : ServeEnv) :
    ∀ (chain : List Mw) (ctx : Ctx), ctx.aborted = true → runChain env chain ctx = ctx := by
  intro chain
  induction chain with
  | nil => intro ctx _; rfl
  | cons mw rest ih =>
    intro ctx ha
    rw [runChain_cons, if_pos ha]
    exact ih ctx ha

theorem runChain_skip (env : ServeEnv) :
    ∀ (chain : List Mw) (ctx : Ctx), ctx.skipCsrf = true →
      (runChain env chain ctx).trace = ctx.trace := by
  intro chain
  induction chain with
  | nil => intro ctx _; rfl
  | cons mw rest ih =>
    intro ctx hs
    by_cases ha : ctx.aborted
    · rw [runChain_aborted env _ ctx ha]
    · rw [runChain_cons, if_neg ha]
      obtain ⟨h1, h2⟩ := runMw_skip env mw ctx hs
      rw [ih _ h1, h2]

theorem runChain_guarded (env : ServeEnv) (bp : String) :
    ∀ (chain : List Mw), gateGuarded bp chain = true →
      ∀ (ctx : Ctx), ctx.req.path = pathJoin bp "/graphql" →
        (runChain env chain ctx).trace = ctx.trace := by
  intro chain
  induction chain with
  | nil => intro _ ctx _; rfl
  | cons mw rest ih =>
    intro hg ctx hp
    by_cases ha : ctx.aborted
    · rw [runChain_aborted env _ ctx ha]
    · rw [runChain_cons, if_neg ha]
      cases mw with
      | csrfGate => simp [gateGuarded] at hg
      | csrfExempt b =>
        by_cases hb : ctx.req.path = pathJoin b "/graphql"
        · have h1 : runMw env (Mw.csrfExempt b) ctx = { ctx with skipCsrf := true } := by
            simp [runMw, hb]
          rw [h1]
          exact runChain_skip env rest _ rfl
        · have h1 : runMw env (Mw.csrfExempt b) ctx = ctx := by
            simp [runMw, hb]
          rw [h1]
          have hb' : ¬ b = bp := fun e => hb (by rw [e]; exact hp)
          have hg' : gateGuarded bp rest = true := by
            simpa [gateGuarded, hb'] using hg
          exact ih hg' ctx hp
      | recovery =>
        rw [runMw_inert env _ ctx (by rfl)]
        exact ih (by simpa [gateGuarded] using hg) ctx hp
      | requestId =>
        rw [runMw_inert env _ ctx (by rfl)]
        exact ih (by simpa [gateGuarded] using hg) ctx hp
      | logging b =>
        rw [runMw_inert env _ ctx (by rfl)]
        exact ih (by simpa [gateGuarded] using hg) ctx hp
      | gzip =>
        rw [runMw_inert env _ ctx (by rfl)]
        exact ih (by simpa [gateGuarded] using hg) ctx hp
      | secureHeaders =>
        have hg' : gateGuarded bp rest = true := by simpa [gateGuarded] using hg
        have h2 := ih hg' (runMw env Mw.secureHeaders ctx) (by rw [runMw_req]; exact hp)
        rw [h2]
        simp [runMw]
      | auth =>
        have hg' : gateGuarded bp rest = true := by simpa [gateGuarded] using hg
        have h2 := ih hg' (runMw env Mw.auth ctx) (by rw [runMw_req]; exact hp)
        rw [h2]
        simp only [runMw, Ctx.abortWith]
        split_ifs <;> rfl

theorem runChain_auth_aborts (env : ServeEnv) :
    ∀ (chain : List Mw) (ctx : Ctx), Mw.auth ∈ chain →
      ctx.req.hasValidSession = false →
      (runChain env chain ctx).aborted = true := by
  intro chain
  induction chain with
  | nil => intro ctx h _; simp at h
  | cons mw rest ih =>
    intro ctx hmem hsession
    by_cases ha : ctx.aborted
    · rw [runChain_aborted env _ ctx ha]; exact ha
    · rw [runChain_cons, if_neg ha]
      by_cases hauth : mw = Mw.auth
      · subst hauth
        have h1 : runMw env Mw.auth ctx = ctx.abortWith 401 (Body.text "Unauthorized") := by
          simp [runMw, hsession]
        rw [h1, runChain_aborted env rest _ rfl]
        rfl
      · have hmem' : Mw.auth ∈ rest := by
          rcases List.mem_cons.mp hmem with h | h
          · exact absurd h.symm hauth
          · exact h
        exact ih _ hmem' (by rw [runMw_req]; exact hsession)

theorem runChain_no_handler (env : ServeEnv) (hh : Handler) :
    ∀ (chain : List Mw) (ctx : Ctx), Event.handlerRan hh ∉ ctx.trace →
      Event.handlerRan hh ∉ (runChain env chain ctx).trace := by
  intro chain
  induction chain with
  | nil => intro ctx h; exact h
  | cons mw rest ih =>
    intro ctx h
    by_cases ha : ctx.aborted
    · rw [runChain_aborted env _ ctx ha]; exact h
    · rw [runChain_cons, if_neg ha]
      refine ih _ ?_
      rcases runMw_trace env mw ctx with ht | ht <;> rw [ht] <;> simp [h]

theorem runMw_headers (env : ServeEnv) (mw : Mw) (ctx : Ctx) (hd : String × String)
    (h : hd ∈ ctx.headers) : hd ∈ (runMw env mw ctx).headers := by
  cases mw <;> simp only [runMw, Ctx.abortWith] <;> (try split_ifs) <;> simp [h]

theorem runChain_headers (env : ServeEnv) (hd : String × String) :
    ∀ (chain : List Mw) (ctx : Ctx), hd ∈ ctx.headers →
      hd ∈ (runChain env chain ctx).headers := by
  intro chain
  induction chain with
  | nil => intro ctx h; exact h
  | cons mw rest ih =>
    intro ctx h
    by_cases ha : ctx.aborted
    · rw [runChain_aborted env _ ctx ha]; exact h
    · rw [runChain_cons, if_neg ha]
      exact ih _ (runMw_headers env mw ctx hd h)

theorem runHandler_headers (h : Handler) (ctx : Ctx) :
    (runHandler h ctx).headers = ctx.headers := by
  cases h <;> rfl

theorem runChain_append (env : ServeEnv) (l1 l2 : List Mw) (ctx : Ctx) :
    runChain env (l1 ++ l2) ctx = runChain env l2 (runChain env l1 ctx) :=
  List.foldl_append _ _ _ _

theorem builtEngineChain_inert (cfg : Config) (mode : GinMode) :
    (builtEngineChain cfg mode).all (fun mw => mwInert mw) = true := by
  by_cases h1 : mode = GinMode.test <;> by_cases h2 : cfg.accessLogEnabled <;>
    simp [builtEngineChain, h1, h2, mwInert]

theorem runChain_all_inert (env : ServeEnv) :
    ∀ (chain : List Mw), chain.all (fun mw => mwInert mw) = true →
      ∀ (ctx : Ctx), runChain env chain ctx = ctx := by
  intro chain
  induction chain with
  | nil => intro _ ctx; rfl
  | cons mw rest ih =>
    intro h ctx
    simp only [List.all_cons, Bool.and_eq_true] at h
    by_cases ha : ctx.aborted
    · rw [runChain_aborted env _ ctx ha]
    · rw [runChain_cons, if_neg ha, runMw_inert env mw ctx h.1]
      exact ih (by simpa using h.2) ctx

theorem runChain_engine (env : ServeEnv) (cfg : Config) (mode : GinMode) (ctx : Ctx) :
    runChain env (builtEngineChain cfg mode) ctx = ctx :=
  runChain_all_inert env _ (builtEngineChain_inert cfg mode) ctx

theorem runHandler_trace (h : Handler) (ctx : Ctx) :
    (runHandler h ctx).trace = ctx.trace ++ [Event.handlerRan h] := by
  cases h <;> rfl

theorem gateGuarded_inert_append (bp : String) :
    ∀ (l m : List Mw), l.all (fun mw => mwInert mw) = true →
      gateGuarded bp (l ++ m) = gateGuarded bp m := by
  intro l
  induction l with
  | nil => intro m _; rfl
  | cons mw rest ih =>
    intro m h
    simp only [List.all_cons, Bool.and_eq_true] at h
    have h2 := ih m (by simpa using h.2)
    cases mw <;> simp [mwInert] at h <;> simpa [gateGuarded] using h2

theorem gateGuarded_builtEngineChain (cfg : Config) (mode : GinMode) :
    gateGuarded cfg.basePath (builtEngineChain cfg mode) = true := by
  have := gateGuarded_inert_append cfg.basePath (builtEngineChain cfg mode) []
    (builtEngineChain_inert cfg mode)
  simpa [gateGuarded] using this

theorem gateGuarded_builtCsrfChain (cfg : Config) (mode : GinMode) :
    gateGuarded cfg.basePath (builtCsrfChain cfg mode) = true := by
  have h : builtCsrfChain cfg mode =
      builtEngineChain cfg mode ++
        ([Mw.secureHeaders, Mw.csrfExempt cfg.basePath] ++ [Mw.csrfGate]) := by
    simp [builtCsrfChain]
  rw [h, gateGuarded_inert_append cfg.basePath _ _ (builtEngineChain_inert cfg mode)]
  simp [gateGuarded]

theorem gateGuarded_builtDynChain (cfg : Config) (mode : GinMode) :
    gateGuarded cfg.basePath (builtDynChain cfg mode) = true := by
  have h : builtDynChain cfg mode =
      builtEngineChain cfg mode ++
        ([Mw.secureHeaders, Mw.csrfExempt cfg.basePath] ++
          ((if cfg.csrfEnabled then [Mw.csrfGate] else []) ++ [Mw.auth])) := by
    simp [builtDynChain]
  rw [h, gateGuarded_inert_append cfg.basePath _ _ (builtEngineChain_inert cfg mode)]
  simp [gateGuarded]

theorem mem_builtRoutes (cfg : Config) (mode : GinMode) {r : Route}
    (h : r ∈ builtRoutes cfg mode) :
    (r.chain = builtDynChain cfg mode ∧ r.handler = Handler.graphql ∧
      r.path = gqlPath cfg ∧ r.method ∈ anyMethods) ∨
    (cfg.csrfEnabled = true ∧ r = csrfTokenRoute cfg mode) ∨
    (r.chain = builtEngineChain cfg mode ∧
      (r.handler = Handler.rootInfo ∨ r.handler = Handler.healthz ∨
        ∃ n, r.handler = Handler.staticFile n)) := by
  unfold builtRoutes at h
  rcases List.mem_append.mp h with h | h
  · rcases List.mem_append.mp h with h | h
    · rcases List.mem_append.mp h with h | h
      · by_cases hcsrf : cfg.csrfEnabled
        · rw [if_pos hcsrf] at h
          exact Or.inr (Or.inl ⟨hcsrf, List.mem_singleton.mp h⟩)
        · rw [if_neg hcsrf] at h
          exact absurd h (List.not_mem_nil r)
      · obtain ⟨m, hm, heq⟩ := List.mem_map.mp h
        rw [← heq]
        exact Or.inl ⟨rfl, rfl, rfl, hm⟩
    · fin_cases h
      · exact Or.inr (Or.inr ⟨rfl, Or.inl rfl⟩)
      · exact Or.inr (Or.inr ⟨rfl, Or.inr (Or.inl rfl)⟩)
  · unfold builtAssetRoutes staticFileRoutes at h
    fin_cases h <;>
      exact Or.inr (Or.inr ⟨rfl, Or.inr (Or.inr ⟨_, rfl⟩)⟩)

theorem findRoute_mem {routes : List Route} {req : Request} {r : Route}
    (h : findRoute routes req = some r) : r ∈ routes :=
  List.mem_of_find?_eq_some h

theorem runRoute_eq (env : ServeEnv) (r : Route) (req : Request) :
    runRoute env r req =
      if (runChain env r.chain (Ctx.init req)).aborted = true then
        runChain env r.chain (Ctx.init req)
      else runHandler r.handler (runChain env r.chain (Ctx.init req)) := rfl

theorem serve_some {a : App} {env : ServeEnv} {req : Request} {r : Route}
    (h : findRoute a.routes req = some r) : serve a env req = runRoute env r req := by
  unfold serve
  rw [h]

theorem serve_none {a : App} {env : ServeEnv} {req : Request}
    (h : findRoute a.routes req = none) :
    serve a env req = (Ctx.init req).abortWith 404 (Body.text "404 page not found") := by
  unfold serve
  rw [h]

theorem serve_no_gate (a : App) (env : ServeEnv) (req : Request) (bp : String)
    (hall : ∀ r ∈ a.routes, gateGuarded bp r.chain = true)
    (hp : req.path = pathJoin bp "/graphql") :
    Event.csrfGateRan ∉ (serve a env req).trace := by
  cases hfind : findRoute a.routes req with
  | none => rw [serve_none hfind]; simp [Ctx.abortWith, Ctx.init]
  | some r =>
    have hg := hall r (findRoute_mem hfind)
    have hchain := runChain_guarded env bp r.chain hg (Ctx.init req)
      (by simpa [Ctx.init] using hp)
    rw [serve_some hfind, runRoute_eq]
    by_cases hab : (runChain env r.chain (Ctx.init req)).aborted = true
    · rw [if_pos hab, hchain]
      simp [Ctx.init]
    · rw [if_neg hab, runHandler_trace, hchain]
      simp [Ctx.init]


/-! ## Route lookup lemmas -/

theorem find?_method (m : String) (hm : m ∈ anyMethods) :
    anyMethods.find? (fun x => decide (x = m)) = some m := by
  fin_cases hm <;> rfl

theorem findRoute_csrfToken (cfg : Config) (mode : GinMode) (req : Request)
    (hcsrf : cfg.csrfEnabled = true) (hmeth : req.method = "GET")
    (hpath : req.path = csrfTokenPath cfg) :
    findRoute (builtRoutes cfg mode) req = some (csrfTokenRoute cfg mode) := by
  unfold findRoute builtRoutes
  rw [hcsrf]
  simp only [if_true, List.cons_append, List.nil_append]
  rw [List.find?_cons_of_pos]
  simp [csrfTokenRoute, hmeth, hpath]

theorem findRoute_gql (cfg : Config) (mode : GinMode) (req : Request)
    (hpath : req.path = gqlPath cfg) (hne : req.path ≠ csrfTokenPath cfg)
    (hm : req.method ∈ anyMethods) :
    findRoute (builtRoutes cfg mode) req = some (gqlRoute cfg mode req.method) := by
  unfold findRoute builtRoutes
  rw [List.find?_append, List.find?_append, List.find?_append]
  have hne' : ¬ csrfTokenPath cfg = req.path := fun h => hne h.symm
  have h1 : ((if cfg.csrfEnabled then [csrfTokenRoute cfg mode] else []).find?
      fun r => decide (r.method = req.method ∧ r.path = req.path)) = none := by
    by_cases hcsrf : cfg.csrfEnabled <;> simp [hcsrf, csrfTokenRoute, hne']
  have h2 : ((anyMethods.map (gqlRoute cfg mode)).find?
      fun r => decide (r.method = req.method ∧ r.path = req.path)) =
      some (gqlRoute cfg mode req.method) := by
    rw [List.find?_map]
    have hcomp : ((fun r : Route => decide (r.method = req.method ∧ r.path = req.path)) ∘
        gqlRoute cfg mode) = fun m => decide (m = req.method) := by
      funext m
      simp [gqlRoute, Function.comp, hpath]
    rw [hcomp, find?_method req.method hm]
    rfl
  rw [h1, h2]
  rfl

theorem findRoute_healthz (cfg : Config) (mode : GinMode) (req : Request)
    (hmeth : req.method = "GET") (hpath : req.path = healthzPath cfg)
    (hne1 : req.path ≠ csrfTokenPath cfg) (hne2 : req.path ≠ gqlPath cfg)
    (hne3 : req.path ≠ rootInfoPath cfg) :
    findRoute (builtRoutes cfg mode) req = some (healthzRoute cfg mode) := by
  unfold findRoute builtRoutes
  rw [List.find?_append, List.find?_append, List.find?_append]
  have hne1' : ¬ csrfTokenPath cfg = req.path := fun h => hne1 h.symm
  have hne2' : ¬ gqlPath cfg = req.path := fun h => hne2 h.symm
  have hne3' : ¬ rootInfoPath cfg = req.path := fun h => hne3 h.symm
  have h1 : ((if cfg.csrfEnabled then [csrfTokenRoute cfg mode] else []).find?
      fun r => decide (r.method = req.method ∧ r.path = req.path)) = none := by
    by_cases hcsrf : cfg.csrfEnabled <;> simp [hcsrf, csrfTokenRoute, hne1']
  have h2 : ((anyMethods.map (gqlRoute cfg mode)).find?
      fun r => decide (r.method = req.method ∧ r.path = req.path)) = none := by
    rw [List.find?_eq_none]
    intro r hr
    obtain ⟨m, _, rfl⟩ := List.mem_map.mp hr
    simp [gqlRoute, hne2']
  have h3 : (([rootInfoRoute cfg mode, healthzRoute cfg mode] : List Route).find?
      fun r => decide (r.method = req.method ∧ r.path = req.path)) =
      some (healthzRoute cfg mode) := by
    rw [List.find?_cons_of_neg, List.find?_cons_of_pos]
    · simp [healthzRoute, hmeth, hpath]
    · simp [rootInfoRoute, hne3']
  rw [h1, h2, h3]
  rfl


/-! ## Serve-result lemmas -/

theorem serve_healthz_result (cfg : Config) (mode : GinMode) (env : ServeEnv) (req : Request)
    (hmeth : req.method = "GET") (hpath : req.path = healthzPath cfg)
    (hne1 : req.path ≠ csrfTokenPath cfg) (hne2 : req.path ≠ gqlPath cfg)
    (hne3 : req.path ≠ rootInfoPath cfg) :
    (serve (builtApp cfg mode) env req).status = some 200 ∧
    (serve (builtApp cfg mode) env req).body = Body.jsonObj [("status", "ok")] := by
  have hfind : findRoute (builtApp cfg mode).routes req = some (healthzRoute cfg mode) :=
    findRoute_healthz cfg mode req hmeth hpath hne1 hne2 hne3
  rw [serve_some hfind, runRoute_eq]
  have hchain : (healthzRoute cfg mode).chain = builtEngineChain cfg mode := rfl
  rw [hchain, runChain_engine]
  have hab : (Ctx.init req).aborted = false := rfl
  rw [if_neg (by rw [hab]; exact Bool.false_ne_true)]
  exact ⟨rfl, rfl⟩

theorem serve_csrfToken_result (cfg : Config) (mode : GinMode) (env : ServeEnv) (req : Request)
    (hcsrf : cfg.csrfEnabled = true) (hmeth : req.method = "GET")
    (hpath : req.path = csrfTokenPath cfg)
    (hnot : req.path ≠ pathJoin cfg.basePath "/graphql") :
    (serve (builtApp cfg mode) env req).status = some 200 ∧
    (serve (builtApp cfg mode) env req).body = Body.jsonObj [("value", env.csrfToken)] ∧
    (serve (builtApp cfg mode) env req).trace =
      [Event.csrfGateRan, Event.handlerRan Handler.csrfToken] := by
  have hfind : findRoute (builtApp cfg mode).routes req = some (csrfTokenRoute cfg mode) :=
    findRoute_csrfToken cfg mode req hcsrf hmeth hpath
  rw [serve_some hfind, runRoute_eq]
  have hchain : (csrfTokenRoute cfg mode).chain =
      builtEngineChain cfg mode ++
        [Mw.secureHeaders, Mw.csrfExempt cfg.basePath, Mw.csrfGate] := by
    show builtCsrfChain cfg mode = _
    simp [builtCsrfChain]
  rw [hchain, runChain_append, runChain_engine]
  have hrun : runChain env [Mw.secureHeaders, Mw.csrfExempt cfg.basePath, Mw.csrfGate]
      (Ctx.init req) =
      { req := req, skipCsrf := false, issuedToken := some env.csrfToken,
        headers := secureConfigHeaders, status := none, body := Body.empty,
        aborted := false, trace := [Event.csrfGateRan] } := by
    simp [runChain, List.foldl, runMw, Ctx.init, hnot, hmeth, csrfSafeMethods]
  rw [hrun]
  simp [runHandler, csrfTokenRoute]

theorem serve_gql_unauth (cfg : Config) (mode : GinMode) (env : ServeEnv) (req : Request)
    (hpath : req.path = gqlPath cfg)
    (hexempt : req.path = pathJoin cfg.basePath "/graphql")
    (hne : req.path ≠ csrfTokenPath cfg) (hm : req.method ∈ anyMethods)
    (hsession : req.hasValidSession = false) :
    (serve (builtApp cfg mode) env req).status = some 401 ∧
    (serve (builtApp cfg mode) env req).trace = [] := by
  have hfind : findRoute (builtApp cfg mode).routes req =
      some (gqlRoute cfg mode req.method) :=
    findRoute_gql cfg mode req hpath hne hm
  rw [serve_some hfind, runRoute_eq]
  by_cases hcsrf : cfg.csrfEnabled
  · have hchain : (gqlRoute cfg mode req.method).chain =
        builtEngineChain cfg mode ++
          [Mw.secureHeaders, Mw.csrfExempt cfg.basePath, Mw.csrfGate, Mw.auth] := by
      show builtDynChain cfg mode = _
      simp [builtDynChain, hcsrf]
    rw [hchain, runChain_append, runChain_engine]
    have hrun : runChain env
        [Mw.secureHeaders, Mw.csrfExempt cfg.basePath, Mw.csrfGate, Mw.auth]
        (Ctx.init req) =
        { req := req, skipCsrf := true, issuedToken := none,
          headers := secureConfigHeaders, status := some 401,
          body := Body.text "Unauthorized", aborted := true, trace := [] } := by
      simp [runChain, List.foldl, runMw, Ctx.init, hexempt, hsession, Ctx.abortWith]
    rw [hrun]
    simp
  · have hchain : (gqlRoute cfg mode req.method).chain =
        builtEngineChain cfg mode ++
          [Mw.secureHeaders, Mw.csrfExempt cfg.basePath, Mw.auth] := by
      show builtDynChain cfg mode = _
      simp [builtDynChain, hcsrf]
    rw [hchain, runChain_append, runChain_engine]
    have hrun : runChain env
        [Mw.secureHeaders, Mw.csrfExempt cfg.basePath, Mw.auth]
        (Ctx.init req) =
        { req := req, skipCsrf := true, issuedToken := none,
          headers := secureConfigHeaders, status := some 401,
          body := Body.text "Unauthorized", aborted := true, trace := [] } := by
      simp [runChain, List.foldl, runMw, Ctx.init, hexempt, hsession, Ctx.abortWith]
    rw [hrun]
    simp

theorem auth_mem_builtDynChain (cfg : Config) (mode : GinMode) :
    Mw.auth ∈ builtDynChain cfg mode := by
  simp [builtDynChain]



theorem runRoute_foreign_handler (env : ServeEnv) (r : Route) (req : Request)
    (hh : Handler) (hne : r.handler ≠ hh) :
    Event.handlerRan hh ∉ (runRoute env r req).trace := by
  rw [runRoute_eq]
  split_ifs with hab
  · exact runChain_no_handler env hh r.chain (Ctx.init req) (by simp [Ctx.init])
  · rw [runHandler_trace]
    have h1 := runChain_no_handler env hh r.chain (Ctx.init req) (by simp [Ctx.init])
    simp only [List.mem_append, List.mem_singleton]
    rintro (h | h)
    · exact h1 h
    · exact hne (Event.handlerRan.inj h).symm

theorem runRoute_secure_headers (env : ServeEnv) (cfg : Config) (mode : GinMode)
    (r : Route) (req : Request) (hd : String × String)
    (hsec : ∃ rest, r.chain = builtEngineChain cfg mode ++ Mw.secureHeaders :: rest)
    (hhd : hd ∈ secureConfigHeaders) : hd ∈ (runRoute env r req).headers := by
  obtain ⟨rest, hc⟩ := hsec
  have h1 : runChain env r.chain (Ctx.init req) =
      runChain env rest (runMw env Mw.secureHeaders (Ctx.init req)) := by
    rw [hc, runChain_append, runChain_engine, runChain_cons,
        if_neg (by simp [Ctx.init])]
  have h2 : hd ∈ (runMw env Mw.secureHeaders (Ctx.init req)).headers := by
    simp [runMw, Ctx.init, hhd]
  have h3 : hd ∈ (runChain env r.chain (Ctx.init req)).headers := by
    rw [h1]
    exact runChain_headers env hd rest _ h2
  rw [runRoute_eq]
  split_ifs
  · exact h3
  · rw [runHandler_headers]
    exact h3


/-! ## Claim theorems -/

theorem except_pure {α ε : Type} (a : α) : (pure a : Except ε α) = Except.ok a := rfl

/-- C1: the CSRF exemption middleware marks a request exempt exactly when its URL path
equals `path.Join(basePath, "/graphql")` (a single exact string comparison, no prefix or
wildcard matching); on every gateway `NewApp` builds, a request with the exempt path
never triggers the CSRF protection gate regardless of HTTP method; and in the retained
dynamic chain the exemption middleware sits strictly before the CSRF gate. -/
theorem C1_csrf_exemption :
    (∀ (env : ServeEnv) (bp : String) (req : Request),
      (runMw env (Mw.csrfExempt bp) (Ctx.init req)).skipCsrf = true ↔
        req.path = pathJoin bp "/graphql") ∧
    (∀ (cfg : Config) (mode : GinMode) (benv : BuildEnv) (a : App)
        (effs : List BuildEffect) (env : ServeEnv) (req : Request),
      NewApp cfg mode benv = Except.ok (a, effs) →
      req.path = pathJoin cfg.basePath "/graphql" →
      Event.csrfGateRan ∉ (serve a env req).trace) ∧
    (∀ (cfg : Config) (mode : GinMode) (benv : BuildEnv) (a : App)
        (effs : List BuildEffect) (g : RouterGroup),
      NewApp cfg mode benv = Except.ok (a, effs) →
      cfg.csrfEnabled = true →
      a.dynamicRoutes = some g →
      ∃ l1 l2 l3, g.handlers =
        l1 ++ [Mw.csrfExempt cfg.basePath] ++ l2 ++ [Mw.csrfGate] ++ l3) := by
  refine ⟨?_, ?_, ?_⟩
  · intro env bp req
    by_cases h : req.path = pathJoin bp "/graphql" <;> simp [runMw, Ctx.init, h]
  · intro cfg mode benv a effs env req hok hpath
    have ha : a = builtApp cfg mode := congrArg Prod.fst (newApp_ok_inv hok)
    subst ha
    apply serve_no_gate _ env req cfg.basePath _ hpath
    intro r hr
    rcases mem_builtRoutes cfg mode hr with ⟨hc, _, _, _⟩ | ⟨_, rfl⟩ | ⟨hc, _⟩
    · rw [hc]
      exact gateGuarded_builtDynChain cfg mode
    · exact gateGuarded_builtCsrfChain cfg mode
    · rw [hc]
      exact gateGuarded_builtEngineChain cfg mode
  · intro cfg mode benv a effs g hok hcsrf hdyn
    have ha : a = builtApp cfg mode := congrArg Prod.fst (newApp_ok_inv hok)
    subst ha
    have hg : g = { basePath := dynPathOf cfg, handlers := builtDynChain cfg mode } := by
      have : (builtApp cfg mode).dynamicRoutes =
          some { basePath := dynPathOf cfg, handlers := builtDynChain cfg mode } := rfl
      rw [this] at hdyn
      exact (Option.some.inj hdyn).symm
    subst hg
    refine ⟨builtEngineChain cfg mode ++ [Mw.secureHeaders], [], [Mw.auth], ?_⟩
    simp [builtDynChain, hcsrf]

/-- C1 witness: on the live example gateway, a POST to the exempt path `/graphql`
produces no CSRF-gate event, instantiating the exemption theorem concretely. -/
theorem C1_witness :
    Event.csrfGateRan ∉
      (serve (builtApp cfgEx GinMode.release) senvEx
        { method := "POST", path := "/graphql", hasValidSession := true,
          hasValidCsrfToken := false }).trace :=
  C1_csrf_exemption.2.1 cfgEx GinMode.release envExOk (builtApp cfgEx GinMode.release)
    (builtEffects GinMode.release) senvEx
    { method := "POST", path := "/graphql", hasValidSession := true,
      hasValidCsrfToken := false }
    (newApp_ok cfgEx GinMode.release envExOk (Or.inr rfl) rfl) (by decide)

/-- C2: for every gateway whose query-server and connection-manager handles are present,
`Shutdown` performs the releases in the order dispatcher (only when one exists), query
server, connection manager — so the connection-manager release is always attempted even
when the dispatcher's release fails — and the error returned is exactly the connection
manager's release error, with the dispatcher's error swallowed. -/
theorem C2_shutdown_order (a : App) (env : ShutdownEnv)
    (hg : a.graphqlServer.isSome = true) (hc : a.cm.isSome = true) :
    Shutdown a env = Except.ok
      ((if a.grpcDispatcher.isSome then [ShutdownEvent.dispatcherShutdown] else []) ++
        [ShutdownEvent.graphqlShutdown, ShutdownEvent.cmShutdown], env.cmErr) := by
  rcases hgs : a.graphqlServer with _ | gs
  · rw [hgs] at hg
    simp at hg
  rcases hcs : a.cm with _ | cm
  · rw [hcs] at hc
    simp at hc
  rcases hds : a.grpcDispatcher with _ | d <;>
    simp [Shutdown, hgs, hcs, hds, except_ok_bind, except_pure]

/-- C2 witness: on the live example gateway with both subsystem releases failing,
Shutdown performs all three releases in order and returns the connection manager's
error, not the dispatcher's. -/
theorem C2_witness :
    Shutdown (builtApp cfgEx GinMode.release)
      { dispatcherErr := some { msg := "dispatch-err" },
        cmErr := some { msg := "cm-err" } } =
      Except.ok
        ((if (builtApp cfgEx GinMode.release).grpcDispatcher.isSome then
            [ShutdownEvent.dispatcherShutdown] else []) ++
          [ShutdownEvent.graphqlShutdown, ShutdownEvent.cmShutdown],
          some { msg := "cm-err" }) :=
  C2_shutdown_order (builtApp cfgEx GinMode.release)
    { dispatcherErr := some { msg := "dispatch-err" },
      cmErr := some { msg := "cm-err" } } rfl rfl

/-- C10: `Shutdown` succeeds without touching a null handle exactly when the
query-server and connection-manager handles are both present — the dispatcher handle is
the only one guarded by a nil check, so its absence never matters. -/
theorem C10_shutdown_nil_safety (a : App) (env : ShutdownEnv) :
    (∃ out, Shutdown a env = Except.ok out) ↔
      (a.graphqlServer.isSome = true ∧ a.cm.isSome = true) := by
  rcases hgs : a.graphqlServer with _ | gs <;> rcases hcs : a.cm with _ | cm <;>
    rcases hds : a.grpcDispatcher with _ | d <;>
      simp [Shutdown, hgs, hcs, hds, except_ok_bind, except_error_bind, except_pure]



/-- C3 counterexample: constructing in Test mode succeeds with the connection-manager
and dispatcher handles null but the query-server handle NON-null (`graph.NewServer` is
invoked unconditionally), refuting "in Test mode all three handles are null". -/
theorem C3_counterexample :
    (NewApp cfgEx GinMode.test envExOk).map
      (fun p => (p.1.cm, p.1.grpcDispatcher, p.1.graphqlServer.isSome)) =
      Except.ok (none, none, true) := by
  rw [newApp_ok cfgEx GinMode.test envExOk (Or.inl rfl) rfl]
  rfl

/-- C3 (amended): after a successful construction outside Test mode all three subsystem
handles are non-null; after a successful construction in Test mode the connection
manager and dispatcher handles are null while the query-server handle is non-null,
built over those null collaborators. -/
theorem C3_subsystem_handles (cfg : Config) (mode : GinMode) (benv : BuildEnv)
    (a : App) (effs : List BuildEffect)
    (hok : NewApp cfg mode benv = Except.ok (a, effs)) :
    (mode ≠ GinMode.test →
      a.cm.isSome = true ∧ a.grpcDispatcher.isSome = true ∧
        a.graphqlServer.isSome = true) ∧
    (mode = GinMode.test →
      a.cm = none ∧ a.grpcDispatcher = none ∧
        a.graphqlServer =
          some (graphNewServer none none cfg.allowedNamespaces cfg.csrfEnabled)) := by
  have ha : a = builtApp cfg mode := congrArg Prod.fst (newApp_ok_inv hok)
  subst ha
  constructor <;> intro hm <;> simp [builtApp, hm]

/-- C3 witness: the amended theorem instantiated on the Test-mode example gateway. -/
theorem C3_witness :
    (builtApp cfgEx GinMode.test).cm = none ∧
    (builtApp cfgEx GinMode.test).grpcDispatcher = none ∧
    (builtApp cfgEx GinMode.test).graphqlServer =
      some (graphNewServer none none cfgEx.allowedNamespaces cfgEx.csrfEnabled) :=
  (C3_subsystem_handles cfgEx GinMode.test envExOk (builtApp cfgEx GinMode.test)
    (builtEffects GinMode.test)
    (newApp_ok cfgEx GinMode.test envExOk (Or.inl rfl) rfl)).2 rfl

/-- C4 counterexample: on a constructed gateway with CSRF enabled, an unauthenticated
GET to the dynamic route `/csrf-token` (which is neither the graphql, health nor a
static route) is answered 200 with its downstream handler invoked — not Unauthorized —
because the route is registered before the authentication middleware. -/
theorem C4_counterexample :
    NewApp cfgEx GinMode.release envExOk =
      Except.ok (builtApp cfgEx GinMode.release, builtEffects GinMode.release) ∧
    (serve (builtApp cfgEx GinMode.release) senvEx
      { method := "GET", path := "/csrf-token", hasValidSession := false,
        hasValidCsrfToken := false }).status = some 200 ∧
    Event.handlerRan Handler.csrfToken ∈
      (serve (builtApp cfgEx GinMode.release) senvEx
        { method := "GET", path := "/csrf-token", hasValidSession := false,
          hasValidCsrfToken := false }).trace := by
  refine ⟨newApp_ok cfgEx GinMode.release envExOk (Or.inr rfl) rfl, ?_, ?_⟩ <;> decide

/-- C4 (amended): on every constructed gateway, no unauthenticated request ever reaches
the query-dispatch (graphql) handler; and an unauthenticated request to the graphql
route — the only dynamic route registered after the authentication gate — receives
status 401 with no downstream handler invoked.  The csrf-token route is excluded: it is
registered before the authentication middleware and so is served without a session. -/
theorem C4_auth_gate (cfg : Config) (mode : GinMode) (benv : BuildEnv) (a : App)
    (effs : List BuildEffect) (env : ServeEnv) (req : Request)
    (hok : NewApp cfg mode benv = Except.ok (a, effs))
    (hsession : req.hasValidSession = false) :
    Event.handlerRan Handler.graphql ∉ (serve a env req).trace ∧
    (req.path = gqlPath cfg → req.path = pathJoin cfg.basePath "/graphql" →
      req.path ≠ csrfTokenPath cfg → req.method ∈ anyMethods →
      (serve a env req).status = some 401 ∧ (serve a env req).trace = []) := by
  have ha : a = builtApp cfg mode := congrArg Prod.fst (newApp_ok_inv hok)
  subst ha
  constructor
  · cases hfind : findRoute (builtApp cfg mode).routes req with
    | none =>
        rw [serve_none hfind]
        simp [Ctx.abortWith, Ctx.init]
    | some r =>
        rw [serve_some hfind]
        have hr := findRoute_mem hfind
        rcases mem_builtRoutes cfg mode hr with ⟨hc, hh, _, _⟩ | ⟨_, rfl⟩ | ⟨_, hh⟩
        · have hab : (runChain env r.chain (Ctx.init req)).aborted = true := by
            rw [hc]
            exact runChain_auth_aborts env _ _ (auth_mem_builtDynChain cfg mode)
              (by simpa [Ctx.init] using hsession)
          rw [runRoute_eq, if_pos hab]
          exact runChain_no_handler env Handler.graphql r.chain (Ctx.init req)
            (by simp [Ctx.init])
        · exact runRoute_foreign_handler env _ req Handler.graphql (by simp [csrfTokenRoute])
        · refine runRoute_foreign_handler env r req Handler.graphql ?_
          rcases hh with h | h | ⟨n, h⟩ <;> rw [h] <;> simp
  · intro h1 h2 h3 h4
    exact serve_gql_unauth cfg mode env req h1 h2 h3 h4 hsession

/-- C4 witness: an unauthenticated POST to `/graphql` on the live example gateway is
answered 401 with an empty event trace. -/
theorem C4_witness :
    (serve (builtApp cfgEx GinMode.release) senvEx
      { method := "POST", path := "/graphql", hasValidSession := false,
        hasValidCsrfToken := false }).status = some 401 :=
  ((C4_auth_gate cfgEx GinMode.release envExOk (builtApp cfgEx GinMode.release)
    (builtEffects GinMode.release) senvEx
    { method := "POST", path := "/graphql", hasValidSession := false,
      hasValidCsrfToken := false }
    (newApp_ok cfgEx GinMode.release envExOk (Or.inr rfl) rfl) rfl).2
    (by decide) (by decide) (by decide) (by decide)).1



/-- C5: every route of the dynamic-route group (the csrf-token and graphql routes)
carries the secure-headers middleware ahead of everything that can abort or write a
body, so every response it produces — for any request, any method, any outcome —
contains the fixed HSTS (max-age 63072000), frame-deny, CSP and nosniff headers. -/
theorem C5_security_headers (cfg : Config) (mode : GinMode) (benv : BuildEnv) (a : App)
    (effs : List BuildEffect)
    (hok : NewApp cfg mode benv = Except.ok (a, effs)) :
    ∀ r ∈ a.routes, (r.handler = Handler.csrfToken ∨ r.handler = Handler.graphql) →
      ∀ (env : ServeEnv) (req : Request) (hd : String × String),
        hd ∈ secureConfigHeaders → hd ∈ (runRoute env r req).headers := by
  have ha : a = builtApp cfg mode := congrArg Prod.fst (newApp_ok_inv hok)
  subst ha
  intro r hr hdyn env req hd hhd
  rcases mem_builtRoutes cfg mode hr with ⟨hc, _, _, _⟩ | ⟨_, rfl⟩ | ⟨_, hh⟩
  · refine runRoute_secure_headers env cfg mode r req hd ?_ hhd
    refine ⟨Mw.csrfExempt cfg.basePath ::
      ((if cfg.csrfEnabled then [Mw.csrfGate] else []) ++ [Mw.auth]), ?_⟩
    rw [hc]
    simp [builtDynChain]
  · refine runRoute_secure_headers env cfg mode _ req hd ?_ hhd
    refine ⟨[Mw.csrfExempt cfg.basePath, Mw.csrfGate], ?_⟩
    show builtCsrfChain cfg mode = _
    simp [builtCsrfChain]
  · rcases hdyn with h | h <;> rcases hh with h2 | h2 | ⟨n, h2⟩ <;> rw [h] at h2 <;>
      cases h2

/-- C5 witness: the HSTS header is on the graphql route's response to a concrete
request. -/
theorem C5_witness :
    ("Strict-Transport-Security", "max-age=63072000") ∈
      (runRoute senvEx (gqlRoute cfgEx GinMode.release "POST")
        { method := "POST", path := "/graphql", hasValidSession := true,
          hasValidCsrfToken := true }).headers :=
  C5_security_headers cfgEx GinMode.release envExOk (builtApp cfgEx GinMode.release)
    (builtEffects GinMode.release)
    (newApp_ok cfgEx GinMode.release envExOk (Or.inr rfl) rfl)
    (gqlRoute cfgEx GinMode.release "POST") (by decide) (Or.inr rfl) senvEx
    { method := "POST", path := "/graphql", hasValidSession := true,
      hasValidCsrfToken := true }
    ("Strict-Transport-Security", "max-age=63072000") (by decide)

/-- C6: if any construction step fails — connection-manager construction outside test
mode, or the static-asset mount — `NewApp` returns exactly that error and no gateway
value; and success implies neither step failed. -/
theorem C6_construction_failure (cfg : Config) (mode : GinMode) (benv : BuildEnv) :
    (∀ e : GoError, mode ≠ GinMode.test → benv.cmResult = Except.error e →
      NewApp cfg mode benv = Except.error e) ∧
    (∀ e : GoError, (mode = GinMode.test ∨ benv.cmResult = Except.ok { unit := () }) →
      benv.staticFSResult = Except.error e →
      NewApp cfg mode benv = Except.error e) ∧
    (∀ a effs, NewApp cfg mode benv = Except.ok (a, effs) →
      (mode ≠ GinMode.test → benv.cmResult = Except.ok { unit := () }) ∧
      benv.staticFSResult = Except.ok ()) := by
  refine ⟨fun e hm hcm => newApp_error_cm hm hcm,
          fun e hcm hfs => newApp_error_static hcm hfs, ?_⟩
  intro a effs hok
  constructor
  · intro hm
    rcases hcm : benv.cmResult with e | c
    · rw [newApp_error_cm hm hcm] at hok
      exact absurd hok (by simp)
    · obtain ⟨⟨⟩⟩ := c
      rfl
  · rcases hfs : benv.staticFSResult with e | u
    · by_cases hm : mode = GinMode.test
      · rw [newApp_error_static (Or.inl hm) hfs] at hok
        exact absurd hok (by simp)
      · rcases hcm : benv.cmResult with e2 | c
        · rw [newApp_error_cm hm hcm] at hok
          exact absurd hok (by simp)
        · obtain ⟨⟨⟩⟩ := c
          rw [newApp_error_static (Or.inr hcm) hfs] at hok
          exact absurd hok (by simp)
    · rfl

/-- C6 witness: a failing connection-manager construction makes `NewApp` return that
very error on the example configuration. -/
theorem C6_witness :
    NewApp cfgEx GinMode.release
      { cmResult := Except.error { msg := "cluster unreachable" },
        staticFSResult := Except.ok () } =
      Except.error { msg := "cluster unreachable" } :=
  (C6_construction_failure cfgEx GinMode.release
    { cmResult := Except.error { msg := "cluster unreachable" },
      staticFSResult := Except.ok () }).1
    { msg := "cluster unreachable" } (by decide) rfl

/-- C7: a successful Test-mode construction performs no connection-manager construction
effect, its result does not depend on the connection-manager environment at all, no
route's chain contains the recovery middleware, and the retained dynamic-route handle
is non-null, holding the dynamic group's path and chain for attaching substitute
handlers. -/
theorem C7_test_mode (cfg : Config) (benv : BuildEnv) (a : App)
    (effs : List BuildEffect)
    (hok : NewApp cfg GinMode.test benv = Except.ok (a, effs)) :
    BuildEffect.newConnectionManager ∉ effs ∧
    (∀ res, NewApp cfg GinMode.test { benv with cmResult := res } =
      NewApp cfg GinMode.test benv) ∧
    (∀ r ∈ a.routes, Mw.recovery ∉ r.chain) ∧
    a.dynamicRoutes =
      some { basePath := dynPathOf cfg, handlers := builtDynChain cfg GinMode.test } := by
  obtain hpq := newApp_ok_inv hok
  have ha : a = builtApp cfg GinMode.test := congrArg Prod.fst hpq
  have he : effs = builtEffects GinMode.test := congrArg Prod.snd hpq
  subst ha
  subst he
  have hfs : benv.staticFSResult = Except.ok () := by
    rcases hfs : benv.staticFSResult with e | u
    · rw [newApp_error_static (Or.inl rfl) hfs] at hok
      exact absurd hok (by simp)
    · rfl
  refine ⟨by simp [builtEffects], ?_, ?_, rfl⟩
  · intro res
    rw [newApp_ok cfg GinMode.test benv (Or.inl rfl) hfs,
        newApp_ok cfg GinMode.test { benv with cmResult := res } (Or.inl rfl) hfs]
  · intro r hr
    have hrec : Mw.recovery ∉ builtEngineChain cfg GinMode.test := by
      by_cases hlog : cfg.accessLogEnabled <;> simp [builtEngineChain, hlog]
    rcases mem_builtRoutes cfg GinMode.test hr with ⟨hc, _, _, _⟩ | ⟨_, rfl⟩ | ⟨hc, _⟩
    · rw [hc]
      by_cases hcsrf : cfg.csrfEnabled <;> simp [builtDynChain, hcsrf, hrec]
    · show Mw.recovery ∉ builtCsrfChain cfg GinMode.test
      simp [builtCsrfChain, hrec]
    · rw [hc]
      exact hrec

/-- C7 witness: the Test-mode example gateway retains its dynamic-route handle. -/
theorem C7_witness :
    (builtApp cfgEx GinMode.test).dynamicRoutes =
      some { basePath := dynPathOf cfgEx,
             handlers := builtDynChain cfgEx GinMode.test } :=
  (C7_test_mode cfgEx envExOk (builtApp cfgEx GinMode.test)
    (builtEffects GinMode.test)
    (newApp_ok cfgEx GinMode.test envExOk (Or.inl rfl) rfl)).2.2.2



/-- C8: on every constructed gateway, a GET to the health route's path (on any gateway
configuration, provided the path does not collide with an earlier-registered route's
path) is answered 200 with body `{"status":"ok"}`, for any session or token state of
the request: the health route's chain has no authentication gate. -/
theorem C8_healthz (cfg : Config) (mode : GinMode) (benv : BuildEnv) (a : App)
    (effs : List BuildEffect) (env : ServeEnv) (req : Request)
    (hok : NewApp cfg mode benv = Except.ok (a, effs))
    (hmeth : req.method = "GET") (hpath : req.path = healthzPath cfg)
    (hne1 : req.path ≠ csrfTokenPath cfg) (hne2 : req.path ≠ gqlPath cfg)
    (hne3 : req.path ≠ rootInfoPath cfg) :
    (serve a env req).status = some 200 ∧
    (serve a env req).body = Body.jsonObj [("status", "ok")] := by
  have ha : a = builtApp cfg mode := congrArg Prod.fst (newApp_ok_inv hok)
  subst ha
  exact serve_healthz_result cfg mode env req hmeth hpath hne1 hne2 hne3

/-- C8 witness: an unauthenticated, tokenless GET `/healthz` on the live example
gateway is answered 200 with `{"status":"ok"}`. -/
theorem C8_witness :
    (serve (builtApp cfgEx GinMode.release) senvEx
      { method := "GET", path := "/healthz", hasValidSession := false,
        hasValidCsrfToken := false }).status = some 200 ∧
    (serve (builtApp cfgEx GinMode.release) senvEx
      { method := "GET", path := "/healthz", hasValidSession := false,
        hasValidCsrfToken := false }).body = Body.jsonObj [("status", "ok")] :=
  C8_healthz cfgEx GinMode.release envExOk (builtApp cfgEx GinMode.release)
    (builtEffects GinMode.release) senvEx
    { method := "GET", path := "/healthz", hasValidSession := false,
      hasValidCsrfToken := false }
    (newApp_ok cfgEx GinMode.release envExOk (Or.inr rfl) rfl)
    rfl (by decide) (by decide) (by decide) (by decide)

/-- C9: on every constructed gateway, a route with the csrf-token handler is registered
exactly when CSRF is enabled in the configuration, and (when enabled) a GET to its path
— which, not being the exempt graphql path, passes through the token-issuing gate — is
answered 200 with body `{"value": <the issued token>}`. -/
theorem C9_csrf_token_route (cfg : Config) (mode : GinMode) (benv : BuildEnv) (a : App)
    (effs : List BuildEffect)
    (hok : NewApp cfg mode benv = Except.ok (a, effs)) :
    ((∃ r ∈ a.routes, r.handler = Handler.csrfToken) ↔ cfg.csrfEnabled = true) ∧
    (∀ (env : ServeEnv) (req : Request), cfg.csrfEnabled = true →
      req.method = "GET" → req.path = csrfTokenPath cfg →
      req.path ≠ pathJoin cfg.basePath "/graphql" →
      (serve a env req).status = some 200 ∧
      (serve a env req).body = Body.jsonObj [("value", env.csrfToken)]) := by
  have ha : a = builtApp cfg mode := congrArg Prod.fst (newApp_ok_inv hok)
  subst ha
  constructor
  · constructor
    · rintro ⟨r, hr, hh⟩
      rcases mem_builtRoutes cfg mode hr with ⟨_, hgl, _, _⟩ | ⟨hc, _⟩ | ⟨_, hro⟩
      · rw [hh] at hgl
        cases hgl
      · exact hc
      · rcases hro with h | h | ⟨n, h⟩ <;> rw [hh] at h <;> cases h
    · intro hc
      refine ⟨csrfTokenRoute cfg mode, ?_, rfl⟩
      show csrfTokenRoute cfg mode ∈ builtRoutes cfg mode
      unfold builtRoutes
      rw [hc]
      simp
  · intro env req hc hm hp hne
    obtain ⟨h1, h2, _⟩ := serve_csrfToken_result cfg mode env req hc hm hp hne
    exact ⟨h1, h2⟩

/-- C9 witness: on the live example gateway an unauthenticated GET `/csrf-token`
returns 200 with the issued token as `{"value": ...}`. -/
theorem C9_witness :
    (serve (builtApp cfgEx GinMode.release) senvEx
      { method := "GET", path := "/csrf-token", hasValidSession := false,
        hasValidCsrfToken := false }).status = some 200 ∧
    (serve (builtApp cfgEx GinMode.release) senvEx
      { method := "GET", path := "/csrf-token", hasValidSession := false,
        hasValidCsrfToken := false }).body =
      Body.jsonObj [("value", senvEx.csrfToken)] :=
  (C9_csrf_token_route cfgEx GinMode.release envExOk (builtApp cfgEx GinMode.release)
    (builtEffects GinMode.release)
    (newApp_ok cfgEx GinMode.release envExOk (Or.inr rfl) rfl)).2 senvEx
    { method := "GET", path := "/csrf-token", hasValidSession := false,
      hasValidCsrfToken := false }
    rfl rfl (by decide) (by decide)


end Kubetail
